import Mathlib

/-!
# go-littr federated identity core: verification of the spec against the source

Shallow embedding of the parts of mariusor/go-littr that the testable
properties of the spec talk about:

* `loadAccountData` (app/frontend.go) — the session/repository account
  gap-fill merge, over an `Account` model mirroring the merged fields.
* `hideString` (app/frontend.go) — secret masking for log output.
* `Init` (app/frontend.go) — node startup and the password-credential grant.
* `GetOauth2Config` (app/frontend.go) — per-provider OAuth2 configuration.
* `ScoreFmt` (models.go) — human-readable score magnitude formatting.
* `GetKey` / `VerifyHttpSignature` (api) — HTTP-signature key resolution and
  the signature-verification middleware.

Go machine values are embedded as follows: strings become Lean `String`,
`time.Time` becomes `Nat` (`0` is the zero time, matching `IsZero`),
pointers to records become `Option Nat` (an optional address; `none` is Go
`nil`), and slices of referenced records become `List Nat` (lists of
references); the merge logic only ever tests these for nil/emptiness and
copies them wholesale, so the referenced payloads are opaque. Go `float64`
arithmetic in `ScoreFmt` is embedded as a bit-level binary64 model over
exact dyadic rationals: conversions and divisions round to nearest with
ties to even, and decimal rendering rounds the exact binary value with
ties to even as `strconv.FormatFloat` does.
-/

namespace Littr

/-! ## Account data model (app/frontend.go) -/

/-- The fields of `app.Account` touched by `loadAccountData`: `Hash`,
`Email`, `Handle`, `CreatedAt`, `CreatedBy`, `UpdatedAt`, `Metadata`,
`pub`, `Votes`, `Followers`, `Following`, `Blocked`, `Ignored`,
`Parent`, `Children`. -/
structure Account where
  Hash : String
  Email : String
  Handle : String
  CreatedAt : Nat
  CreatedBy : Option Nat
  UpdatedAt : Nat
  Metadata : Option Nat
  pub : Option Nat
  Votes : List Nat
  Followers : List Nat
  Following : List Nat
  Blocked : List Nat
  Ignored : List Nat
  Parent : Option Nat
  Children : List Nat
deriving DecidableEq

/-- Comparison of two account hashes for bit equality (`HashesEqual`). -/
def HashesEqual (h1 h2 : String) : Bool :=
  h1 == h2

/-- The shape shared by every field update in `loadAccountData`:
`if <dst empty> && <src populated> then src else dst`. -/
def gapFill {α : Type} (isEmpty : α → Bool) (a b : α) : α :=
  if isEmpty a && !(isEmpty b) then b else a

/-- Go `len(s) == 0` on a string field. -/
def strEmpty (s : String) : Bool :=
  s.length == 0

/-- Go `t.IsZero()` on a `time.Time` field. -/
def timeIsZero (t : Nat) : Bool :=
  t == 0

/-- Go `p == nil` on a pointer field. -/
def ptrIsNil (p : Option Nat) : Bool :=
  p.isNone

/-- Go `len(l) == 0` on a slice field. -/
def listEmpty (l : List Nat) : Bool :=
  l.length == 0

/-- Merge `loadAccountData(a *Account, b Account)` from app/frontend.go: returns
unchanged `a` when the hashes differ, otherwise fills each empty field of
`a` from a populated `b`. Go mutates `a` in place; the embedding returns
the updated record. -/
def loadAccountData (a : Account) (b : Account) : Account :=
  if !(HashesEqual a.Hash b.Hash) then a
  else
    { a with
      Email := gapFill strEmpty a.Email b.Email
      Handle := gapFill strEmpty a.Handle b.Handle
      CreatedAt := gapFill timeIsZero a.CreatedAt b.CreatedAt
      CreatedBy := gapFill ptrIsNil a.CreatedBy b.CreatedBy
      UpdatedAt := gapFill timeIsZero a.UpdatedAt b.UpdatedAt
      Metadata := gapFill ptrIsNil a.Metadata b.Metadata
      pub := gapFill ptrIsNil a.pub b.pub
      Votes := gapFill listEmpty a.Votes b.Votes
      Followers := gapFill listEmpty a.Followers b.Followers
      Following := gapFill listEmpty a.Following b.Following
      Blocked := gapFill listEmpty a.Blocked b.Blocked
      Ignored := gapFill listEmpty a.Ignored b.Ignored
      Parent := gapFill ptrIsNil a.Parent b.Parent
      Children := gapFill listEmpty a.Children b.Children }

/-- Masking helper `hideString` from app/frontend.go: strings of length at most 3 mask to
`***`; longer strings keep only the last 3 bytes, the rest become `*`. -/
def hideString (s : String) : String :=
  let l := s.length
  if l ≤ 3 then "***"
  else String.mk (List.replicate (l - 3) '*') ++ String.mk (s.data.drop (l - 3))

/-! ## gap-fill helper lemmas -/

theorem gapFill_of_populated {α : Type} (e : α → Bool) (a b : α)
    (h : e a = false) : gapFill e a b = a := by
  simp [gapFill, h]

theorem gapFill_idem {α : Type} (e : α → Bool) (a b : α) :
    gapFill e (gapFill e a b) b = gapFill e a b := by
  unfold gapFill
  by_cases h : (e a && !(e b)) = true
  · rw [if_pos h]
    have hb : e b = false := by
      rcases Bool.and_eq_true_iff.mp h with ⟨_, h2⟩
      simpa using h2
    simp [hb]
  · rw [if_neg h, if_neg h]

theorem gapFill_comm_of_compat {α : Type} (e : α → Bool) (a b c : α)
    (h : b = c ∨ e b = true ∨ e c = true) :
    gapFill e (gapFill e a b) c = gapFill e (gapFill e a c) b := by
  rcases h with rfl | hb | hc
  · rfl
  · unfold gapFill
    simp [hb]
  · unfold gapFill
    simp [hc]

/-! ## Concrete sample accounts -/

/-- An account with every field at its zero value. -/
def emptyAccount : Account :=
  ⟨"", "", "", 0, none, 0, none, none, [], [], [], [], [], none, []⟩

/-! ## Claims about the gap-fill merge -/

/-- C1: if the destination and source hashes are not bit-equal, the
gap-fill merge `loadAccountData` is a no-op, leaving every field of the
destination unchanged. -/
theorem loadAccountData_identity_guard (a b : Account)
    (h : HashesEqual a.Hash b.Hash = false) : loadAccountData a b = a := by
  simp [loadAccountData, h]

theorem loadAccountData_identity_guard_witness :
    HashesEqual ({ emptyAccount with Hash := "h1" } : Account).Hash
        ({ emptyAccount with Hash := "h2" } : Account).Hash = false ∧
    loadAccountData { emptyAccount with Hash := "h1" }
        { emptyAccount with Hash := "h2" } =
      { emptyAccount with Hash := "h1" } :=
  ⟨by decide, loadAccountData_identity_guard _ _ (by decide)⟩

/-- C2: for every pair of accounts and every merged field, a populated
destination field survives the merge unchanged, regardless of the source
value. -/
theorem loadAccountData_gap_fill_never_destroys (a b : Account) :
    (a.Email.length ≠ 0 → (loadAccountData a b).Email = a.Email) ∧
    (a.Handle.length ≠ 0 → (loadAccountData a b).Handle = a.Handle) ∧
    (a.CreatedAt ≠ 0 → (loadAccountData a b).CreatedAt = a.CreatedAt) ∧
    (a.CreatedBy ≠ none → (loadAccountData a b).CreatedBy = a.CreatedBy) ∧
    (a.UpdatedAt ≠ 0 → (loadAccountData a b).UpdatedAt = a.UpdatedAt) ∧
    (a.Metadata ≠ none → (loadAccountData a b).Metadata = a.Metadata) ∧
    (a.pub ≠ none → (loadAccountData a b).pub = a.pub) ∧
    (a.Votes ≠ [] → (loadAccountData a b).Votes = a.Votes) ∧
    (a.Followers ≠ [] → (loadAccountData a b).Followers = a.Followers) ∧
    (a.Following ≠ [] → (loadAccountData a b).Following = a.Following) ∧
    (a.Blocked ≠ [] → (loadAccountData a b).Blocked = a.Blocked) ∧
    (a.Ignored ≠ [] → (loadAccountData a b).Ignored = a.Ignored) ∧
    (a.Parent ≠ none → (loadAccountData a b).Parent = a.Parent) ∧
    (a.Children ≠ [] → (loadAccountData a b).Children = a.Children) := by
  by_cases hh : HashesEqual a.Hash b.Hash = true
  · refine ⟨?_, ?_, ?_, ?_, ?_, ?_, ?_, ?_, ?_, ?_, ?_, ?_, ?_, ?_⟩ <;>
      intro h <;>
      simp_all [loadAccountData, hh, gapFill, strEmpty, timeIsZero, ptrIsNil,
        listEmpty, List.length_eq_zero]
  · simp [loadAccountData, Bool.not_eq_true _ ▸ hh]

theorem loadAccountData_gap_fill_never_destroys_witness :
    (loadAccountData { emptyAccount with Hash := "h", Email := "me@x" }
        { emptyAccount with Hash := "h", Email := "you@y" }).Email = "me@x" :=
  (loadAccountData_gap_fill_never_destroys _ _).1 (by decide)

/-- The accounts witnessing order-dependence of the gap-fill merge. -/
def dstC5 : Account := { emptyAccount with Hash := "h" }

/-- A source populating only `Email`. -/
def s1C5 : Account := { emptyAccount with Hash := "h", Email := "alice@example.com" }

/-- A second source populating `Email` with a different value. -/
def s2C5 : Account := { emptyAccount with Hash := "h", Email := "bob@example.com" }

/-- A source populating only `Handle`. -/
def s3C5 : Account := { emptyAccount with Hash := "h", Handle := "alice" }

/-- C5 counterexample: merging two same-hash sources into an empty
destination in the two possible orders yields different accounts, so the
gap-fill merge is not commutative as claimed. -/
theorem loadAccountData_not_commutative :
    HashesEqual dstC5.Hash s1C5.Hash = true ∧
    HashesEqual dstC5.Hash s2C5.Hash = true ∧
    loadAccountData (loadAccountData dstC5 s1C5) s2C5 ≠
      loadAccountData (loadAccountData dstC5 s2C5) s1C5 := by
  decide

/-- For every merged field, the two sources either agree or at least one
of them leaves the field empty. -/
def compatibleSources (b c : Account) : Prop :=
  (b.Email = c.Email ∨ strEmpty b.Email = true ∨ strEmpty c.Email = true) ∧
  (b.Handle = c.Handle ∨ strEmpty b.Handle = true ∨ strEmpty c.Handle = true) ∧
  (b.CreatedAt = c.CreatedAt ∨ timeIsZero b.CreatedAt = true ∨ timeIsZero c.CreatedAt = true) ∧
  (b.CreatedBy = c.CreatedBy ∨ ptrIsNil b.CreatedBy = true ∨ ptrIsNil c.CreatedBy = true) ∧
  (b.UpdatedAt = c.UpdatedAt ∨ timeIsZero b.UpdatedAt = true ∨ timeIsZero c.UpdatedAt = true) ∧
  (b.Metadata = c.Metadata ∨ ptrIsNil b.Metadata = true ∨ ptrIsNil c.Metadata = true) ∧
  (b.pub = c.pub ∨ ptrIsNil b.pub = true ∨ ptrIsNil c.pub = true) ∧
  (b.Votes = c.Votes ∨ listEmpty b.Votes = true ∨ listEmpty c.Votes = true) ∧
  (b.Followers = c.Followers ∨ listEmpty b.Followers = true ∨ listEmpty c.Followers = true) ∧
  (b.Following = c.Following ∨ listEmpty b.Following = true ∨ listEmpty c.Following = true) ∧
  (b.Blocked = c.Blocked ∨ listEmpty b.Blocked = true ∨ listEmpty c.Blocked = true) ∧
  (b.Ignored = c.Ignored ∨ listEmpty b.Ignored = true ∨ listEmpty c.Ignored = true) ∧
  (b.Parent = c.Parent ∨ ptrIsNil b.Parent = true ∨ ptrIsNil c.Parent = true) ∧
  (b.Children = c.Children ∨ listEmpty b.Children = true ∨ listEmpty c.Children = true)

/-- C5 amended: for same-hash accounts the merge order of two sources is
irrelevant provided the sources are field-compatible (for each field they
agree or one of them leaves it empty); unrestricted commutativity fails. -/
theorem loadAccountData_comm_of_compatible (a b c : Account)
    (hab : HashesEqual a.Hash b.Hash = true)
    (hac : HashesEqual a.Hash c.Hash = true)
    (hbc : compatibleSources b c) :
    loadAccountData (loadAccountData a b) c =
      loadAccountData (loadAccountData a c) b := by
  obtain ⟨h1, h2, h3, h4, h5, h6, h7, h8, h9, h10, h11, h12, h13, h14⟩ := hbc
  simp only [loadAccountData, hab, hac, Bool.not_true, Bool.false_eq_true,
    if_false]
  simp [hab, hac, gapFill_comm_of_compat _ _ _ _ h1,
    gapFill_comm_of_compat _ _ _ _ h2, gapFill_comm_of_compat _ _ _ _ h3,
    gapFill_comm_of_compat _ _ _ _ h4, gapFill_comm_of_compat _ _ _ _ h5,
    gapFill_comm_of_compat _ _ _ _ h6, gapFill_comm_of_compat _ _ _ _ h7,
    gapFill_comm_of_compat _ _ _ _ h8, gapFill_comm_of_compat _ _ _ _ h9,
    gapFill_comm_of_compat _ _ _ _ h10, gapFill_comm_of_compat _ _ _ _ h11,
    gapFill_comm_of_compat _ _ _ _ h12, gapFill_comm_of_compat _ _ _ _ h13,
    gapFill_comm_of_compat _ _ _ _ h14]

theorem loadAccountData_comm_of_compatible_witness :
    loadAccountData (loadAccountData dstC5 s1C5) s3C5 =
      loadAccountData (loadAccountData dstC5 s3C5) s1C5 :=
  loadAccountData_comm_of_compatible dstC5 s1C5 s3C5 (by decide) (by decide)
    (by constructor <;> simp [s1C5, s3C5, emptyAccount, strEmpty, timeIsZero,
      ptrIsNil, listEmpty])

/-- C6: the gap-fill merge is idempotent: merging the same source twice
changes nothing beyond the first merge. -/
theorem loadAccountData_idempotent (a b : Account) :
    loadAccountData (loadAccountData a b) b = loadAccountData a b := by
  by_cases hh : HashesEqual a.Hash b.Hash = true
  · simp [loadAccountData, hh, gapFill_idem]
  · simp [loadAccountData, Bool.not_eq_true _ ▸ hh]

/-- C8: `hideString` fully masks strings of length at most 3 as `***` and
otherwise replaces all but the last 3 characters by stars; in particular
`hideString "abcd" = "*bcd"` and `hideString "ab" = "***"`. -/
theorem hideString_masks :
    (∀ s : String, s.length ≤ 3 → hideString s = "***") ∧
    (∀ s : String, 3 < s.length →
      hideString s =
        String.mk (List.replicate (s.length - 3) '*' ++ s.data.drop (s.length - 3))) ∧
    hideString "abcd" = "*bcd" ∧ hideString "ab" = "***" := by
  refine ⟨?_, ?_, by decide, by decide⟩
  · intro s h
    simp [hideString, h]
  · intro s h
    rw [hideString]
    simp only [not_le.mpr h, if_false]
    rfl

theorem hideString_masks_witness : hideString "ab" = "***" :=
  hideString_masks.1 "ab" (by decide)

/-! ## Score formatting (models.go, `ScoreFmt`)

Go computes over `float64`. The embedding models binary64 arithmetic
bit-exactly in the normal range: `roundFloat64` rounds an exact rational
to 53 significant bits (round to nearest, ties to even), which yields
the int64-to-float64 conversion and correctly rounded division; decimal
rendering rounds the exact binary value to one decimal digit, ties to
even, as `strconv.FormatFloat` does. For
`d = math.Ceil(math.Log10(math.Abs(base)))` the model uses the exact
`Int.clog 10` of the binary64 `base`: the Go `Log10` returns the exact
integer at exact powers of ten, and at every other input evaluated by
the theorems below the distance of `log10 base` to the nearest integer
is far above the libm error, so `d` agrees with the program at all
inputs the theorems touch. -/

/-- Split a character list at the first occurrence of `sep`; the
separator is dropped and a missing separator yields an empty tail. -/
def splitFirst (sep : Char) : List Char → List Char × List Char
  | [] => ([], [])
  | c :: cs =>
    if c = sep then ([], cs)
    else
      let (a, b) := splitFirst sep cs
      (c :: a, b)

/-- Split a character list at each occurrence of `sep`. -/
def splitOnChar (sep : Char) : List Char → List (List Char)
  | [] => [[]]
  | c :: cs =>
    if c = sep then [] :: splitOnChar sep cs
    else
      match splitOnChar sep cs with
      | [] => [[c]]
      | x :: xs => (c :: x) :: xs

/-- Split at the first `://`, returning the scheme and the remainder. -/
def splitScheme : List Char → Option (List Char × List Char)
  | [] => none
  | ':' :: '/' :: '/' :: rest => some ([], rest)
  | c :: cs =>
    match splitScheme cs with
    | none => none
    | some (a, b) => some (c :: a, b)

/-- An ASCII control character, on which the Go `url.Parse` fails. -/
def containsCtl : List Char → Bool
  | [] => false
  | c :: cs => (c.toNat < 32 || c.toNat == 127) || containsCtl cs

/-- The components of a parsed URL used by the claims. -/
structure GoURL where
  Scheme : String
  Host : String
  Path : String
  Fragment : String
deriving DecidableEq

/-- The model of Go `url.Parse` described above. -/
def urlParse (s : String) : Option GoURL :=
  if containsCtl s.data then none
  else
    let (noFrag, frag) := splitFirst '#' s.data
    match splitScheme noFrag with
    | none => some ⟨"", "", String.mk noFrag, String.mk frag⟩
    | some (scheme, after) =>
      let (host, rest) := splitFirst '/' after
      some ⟨String.mk scheme, String.mk host,
        if rest.isEmpty then "" else String.mk ('/' :: rest), String.mk frag⟩

/-- Go `path.Base`: the last nonempty slash-separated element, `.` when
there is none. -/
def pathBase (p : String) : String :=
  match ((splitOnChar '/' p.data).filter (fun x => x ≠ [])).getLast? with
  | some x => String.mk x
  | none => "."

/-! ## Key resolution (`keyLoader.GetKey`, api) -/

/-- The slice of the stored account that `GetKey` reads: the identity
hash and the stored SubjectPublicKeyInfo bytes
(`acc.Metadata.Key.Public`). -/
structure KeyAccount where
  Hash : String
  KeyPublic : List Nat
deriving DecidableEq

/-- Key resolver `keyLoader.GetKey` from api: parse the key id URL, reject any
fragment other than `main-key`, then load the account named by the last
path segment (`db.Config.LoadAccount`) and decode its stored public key
(`x509.ParsePKIXPublicKey`). The two collaborators are passed as
functions; Go returns `interface{}` holding either an error or the key,
embedded as `Except`. -/
def GetKey (loadAccount : String → Except String KeyAccount)
    (parsePKIXPublicKey : List Nat → Except String (List Nat))
    (id : String) : Except String (List Nat) :=
  match urlParse id with
  | none => Except.error "url parse error"
  | some u =>
    if u.Fragment ≠ "main-key" then Except.error "invalid key"
    else
      match loadAccount (pathBase u.Path) with
      | Except.error e => Except.error e
      | Except.ok acc => parsePKIXPublicKey acc.KeyPublic

/-- C7: a key id URL whose fragment is not exactly `main-key` fails with
the invalid-key error, and the result is independent of the account
store and the key decoder — no store or network access can influence
it; only a `main-key` fragment proceeds to load the account and decode
its stored key. -/
theorem GetKey_fragment_check
    (load1 load2 : String → Except String KeyAccount)
    (parse1 parse2 : List Nat → Except String (List Nat))
    (id : String) (u : GoURL) (hu : urlParse id = some u) :
    (u.Fragment ≠ "main-key" →
      GetKey load1 parse1 id = Except.error "invalid key" ∧
      GetKey load1 parse1 id = GetKey load2 parse2 id) ∧
    (u.Fragment = "main-key" →
      GetKey load1 parse1 id =
        match load1 (pathBase u.Path) with
        | Except.error e => Except.error e
        | Except.ok acc => parse1 acc.KeyPublic) := by
  constructor
  · intro hfrag
    constructor <;> simp [GetKey, hu, hfrag]
  · intro hfrag
    simp [GetKey, hu, hfrag]

theorem GetKey_fragment_check_witness :
    GetKey (fun _ => Except.error "store untouched")
        (fun _ => Except.error "decoder untouched")
        "http://littr.git/api/actors/e33c4ff5#other-key" =
      Except.error "invalid key" :=
  (GetKey_fragment_check (fun _ => Except.error "store untouched")
      (fun _ => Except.error "decoder untouched")
      (fun _ => Except.error "s2") (fun _ => Except.error "p2")
      "http://littr.git/api/actors/e33c4ff5#other-key"
      ⟨"http", "littr.git", "/api/actors/e33c4ff5", "other-key"⟩
      (by decide)).1 (by decide) |>.1

/-! ## HTTP signature verification middleware (`VerifyHttpSignature`, api) -/

/-- Modelled from the spec: the anonymous sentinel account returned by
`frontend.AnonymousAccount()` (not among the excerpted sources) — an
account with every field at its zero value. -/
def AnonymousAccount : Account := emptyAccount

/-- The features of an inbound request that the middleware inspects:
whether an `Authorization` header is present, which headers the carried
signature declares as covered, and whether the cryptographic signature
check over those headers succeeds. -/
structure SigRequest where
  hasAuthorization : Bool
  coveredHeaders : List String
  signatureValid : Bool
deriving DecidableEq

/-- Required headers from api:
`v.SetRequiredHeaders` with `(request-target)`, `host`, `date`. -/
def requiredHeaders : List String := ["(request-target)", "host", "date"]

/-- Modelled from the spec: `v.Verify` of the external httpsig library —
verification succeeds only when every required header is among the
declared covered headers of the signature and the signature itself checks
out (§4.2, §6). -/
def sigVerify (r : SigRequest) : Bool :=
  requiredHeaders.all (fun h => r.coveredHeaders.contains h) && r.signatureValid

/-- What the middleware did with one request: the account stored on the
request context, whether a `WWW-Authenticate` challenge was added,
whether an Unauthorized error response was returned, and whether the
next handler ran. -/
structure MwOutcome where
  account : Account
  wwwAuthenticateAdded : Bool
  unauthorizedReturned : Bool
  nextCalled : Bool
deriving DecidableEq

/-- Middleware `VerifyHttpSignature` from api: requests without `Authorization` pass
through as anonymous; requests with a failing signature get the
challenge header and a log line, but the `HandleError(w, r,
http.StatusUnauthorized, err)` response is commented out in the source,
so they also pass through as anonymous; only a verified signature
attaches the resolved account. -/
def VerifyHttpSignature (getterAcc : Account) (r : SigRequest) : MwOutcome :=
  if r.hasAuthorization then
    if sigVerify r then ⟨getterAcc, false, false, true⟩
    else ⟨AnonymousAccount, true, false, true⟩
  else ⟨AnonymousAccount, false, false, true⟩

/-- A signed request whose covered headers omit `date`. -/
def reqNoDate : SigRequest := ⟨true, ["(request-target)", "host"], true⟩

/-- C3 counterexample: a request carrying a signature whose covered
headers omit `date` fails verification, yet the middleware returns no
Unauthorized error: it stores the anonymous actor and forwards the
request to the next handler, contradicting the claim. -/
theorem verifyHttpSignature_downgrades_on_missing_date :
    sigVerify reqNoDate = false ∧
    VerifyHttpSignature { emptyAccount with Hash := "signer", Handle := "signer" }
        reqNoDate =
      ⟨AnonymousAccount, true, false, true⟩ := by
  decide

/-- C3 amended: a signature whose covered headers omit `date` does fail
verification, but the request is not rejected with Unauthorized: the
middleware adds the `WWW-Authenticate` challenge, logs the failure, and
processes the request as the anonymous actor. -/
theorem verifyHttpSignature_missing_date_anonymous (acc : Account)
    (r : SigRequest) (hauth : r.hasAuthorization = true)
    (hdate : r.coveredHeaders.contains "date" = false) :
    sigVerify r = false ∧
    VerifyHttpSignature acc r = ⟨AnonymousAccount, true, false, true⟩ := by
  have hv : sigVerify r = false := by
    simp only [sigVerify, requiredHeaders, List.all_cons, List.all_nil, hdate]
    simp
  exact ⟨hv, by simp [VerifyHttpSignature, hauth, hv]⟩

theorem verifyHttpSignature_missing_date_anonymous_witness :
    sigVerify reqNoDate = false ∧
    VerifyHttpSignature emptyAccount reqNoDate =
      ⟨AnonymousAccount, true, false, true⟩ :=
  verifyHttpSignature_missing_date_anonymous emptyAccount reqNoDate
    (by decide) (by decide)

/-! ## OAuth2 provider configuration (`GetOauth2Config`, app/frontend.go) -/

/-- ASCII lower-casing, standing in for Go `strings.ToLower` on the
provider names that occur in the source. -/
def toLowerStr (s : String) : String :=
  String.mk (s.data.map fun c =>
    if 'A' ≤ c ∧ c ≤ 'Z' then Char.ofNat (c.toNat + 32) else c)

/-- The fields of `oauth2.Config` that `GetOauth2Config` populates. -/
structure Oauth2Config where
  ClientID : String
  ClientSecret : String
  AuthURL : String
  TokenURL : String
  RedirectURL : String
deriving DecidableEq

/-- Provider table `GetOauth2Config` from app/frontend.go: a static per-provider table
keyed by the lower-cased provider name (environment access `os.Getenv`
passed in as `getenv`), followed by the redirect rule: when `OAUTH2_URL`
fails to parse or has an empty host the redirect is
`{localBaseURL}/auth/{provider}/callback`; otherwise `RedirectURL` is
never assigned and stays at its zero value `""`. -/
def GetOauth2Config (getenv : String → String)
    (provider localBaseURL : String) : Oauth2Config :=
  let p := toLowerStr provider
  let config : Oauth2Config :=
    if p = "github" then
      ⟨getenv "GITHUB_KEY", getenv "GITHUB_SECRET",
        "https://github.com/login/oauth/authorize",
        "https://github.com/login/oauth/access_token", ""⟩
    else if p = "gitlab" then
      ⟨getenv "GITLAB_KEY", getenv "GITLAB_SECRET",
        "https://gitlab.com/login/oauth/authorize",
        "https://gitlab.com/login/oauth/access_token", ""⟩
    else if p = "facebook" then
      ⟨getenv "FACEBOOK_KEY", getenv "FACEBOOK_SECRET",
        "https://graph.facebook.com/oauth/authorize",
        "https://graph.facebook.com/oauth/access_token", ""⟩
    else if p = "google" then
      ⟨getenv "GOOGLE_KEY", getenv "GOOGLE_SECRET",
        "https://accounts.google.com/o/oauth2/auth",
        "https://accounts.google.com/o/oauth2/token", ""⟩
    else
      ⟨getenv "OAUTH2_KEY", getenv "OAUTH2_SECRET",
        getenv "API_URL" ++ "/oauth/authorize",
        getenv "API_URL" ++ "/oauth/token", ""⟩
  match urlParse (getenv "OAUTH2_URL") with
  | none =>
    { config with
      RedirectURL := localBaseURL ++ "/auth/" ++ provider ++ "/callback" }
  | some u =>
    if u.Host = "" then
      { config with
        RedirectURL := localBaseURL ++ "/auth/" ++ provider ++ "/callback" }
    else config

/-- C10: for every provider and base URL, the redirect URL is the local
`/auth/{provider}/callback` exactly when `OAUTH2_URL` is unparseable or
has an empty host (an unset variable parses with an empty host); when
`OAUTH2_URL` carries a host, the returned `RedirectURL` is the empty
string — the configured URL itself is never used to build a redirect. -/
theorem GetOauth2Config_redirect (getenv : String → String)
    (provider localBaseURL : String) :
    (urlParse (getenv "OAUTH2_URL") = none →
      (GetOauth2Config getenv provider localBaseURL).RedirectURL =
        localBaseURL ++ "/auth/" ++ provider ++ "/callback") ∧
    (∀ u, urlParse (getenv "OAUTH2_URL") = some u → u.Host = "" →
      (GetOauth2Config getenv provider localBaseURL).RedirectURL =
        localBaseURL ++ "/auth/" ++ provider ++ "/callback") ∧
    (∀ u, urlParse (getenv "OAUTH2_URL") = some u → u.Host ≠ "" →
      (GetOauth2Config getenv provider localBaseURL).RedirectURL = "") := by
  refine ⟨?_, ?_, ?_⟩
  · intro h
    simp only [GetOauth2Config, h]
  · intro u h hh
    simp only [GetOauth2Config, h, hh, if_pos]
  · intro u h hh
    simp only [GetOauth2Config, h, if_neg hh]
    split_ifs <;> rfl

/-- An environment where only `OAUTH2_URL` is set, to a URL with a
non-empty host. -/
def envWithOauthURL : String → String :=
  fun k => if k = "OAUTH2_URL" then "https://auth.example.com/oauth" else ""

theorem GetOauth2Config_redirect_witness :
    (GetOauth2Config envWithOauthURL "github" "https://littr.me").RedirectURL =
      "" :=
  (GetOauth2Config_redirect envWithOauthURL "github" "https://littr.me").2.2
    ⟨"https", "auth.example.com", "/oauth", ""⟩ (by decide) (by decide)

/-! ## Node startup (`Init`, app/frontend.go) -/

/-- The fields of `oauth2.Token` the startup path reads. -/
structure OAuthToken where
  AccessToken : String
  TokenType : String
  RefreshToken : String
deriving DecidableEq

/-- What startup produced: the resulting self-registration flag and the
token stored on the metadata of the service actor. -/
structure InitResult where
  UserCreatingEnabled : Bool
  TokenLoaded : Option OAuthToken
deriving DecidableEq

/-- The startup password-credential-grant path of `Init` from
app/frontend.go. Parameters stand for the collaborators: `clientID` is
`config.ClientID`, `userCreatingEnabled` the configured flag,
`actorErr`/`actorVal` the two results of `h.storage.fedbox.Actor`, and
`grantErr`/`grantTok` the two results of
`config.PasswordCredentialsToken`. `Except.error` models a Go panic
aborting startup: when the grant yields no error but a nil token, the
code logs, then falls through and dereferences `tok.AccessToken`. -/
def InitStartup (clientID : String) (userCreatingEnabled : Bool)
    (actorErr : Option String) (actorVal : Option Unit)
    (grantErr : Option String) (grantTok : Option OAuthToken) :
    Except String InitResult :=
  if clientID.length > 0 then
    let uc1 := if actorErr.isSome then false else userCreatingEnabled
    match actorVal with
    | none => Except.ok ⟨uc1, none⟩
    | some _ =>
      match grantErr with
      | some _ => Except.ok ⟨false, none⟩
      | none =>
        match grantTok with
        | none =>
          Except.error
            "runtime error: invalid memory address or nil pointer dereference"
        | some tok => Except.ok ⟨uc1, some tok⟩
  else Except.ok ⟨false, none⟩

/-- C9: the code violates the claim at the nil-token outcome. A failing
grant (error) and a successful grant both let startup complete, but a
grant returning no error and a nil token makes `Init` dereference the
nil token and panic, aborting node startup instead of merely disabling
self-registration. -/
theorem InitStartup_nil_token_panics :
    InitStartup "oauth-client" true none (some ()) none none =
      Except.error
        "runtime error: invalid memory address or nil pointer dereference" ∧
    InitStartup "oauth-client" true none (some ()) (some "grant failed") none =
      Except.ok ⟨false, none⟩ ∧
    InitStartup "oauth-client" true none (some ()) none
        (some ⟨"access", "Bearer", "refresh"⟩) =
      Except.ok ⟨true, some ⟨"access", "Bearer", "refresh"⟩⟩ := by
  refine ⟨rfl, rfl, rfl⟩

end Littr
